import Mathlib

/-!
Verification of the interactive pose-blend session of
`source/blender/editors/armature/pose_lib_2.c`.

The session state machine, event handling, one-shot execution and teardown
are translated from the C source into executable Lean definitions over an
explicit `World` state record.  External Blender collaborators that are not
part of the file (pose backup store, the slider, action flipping, RNA
properties, depsgraph tagging) are modelled from the specification, each
marked by a doc comment.  Floating-point blend factors are modelled as
rational numbers; the clamping logic is comparison-based, so this is
faithful for the properties proved here.
-/

/-- The `ePoseBlendState` enum of pose_lib_2.c (lines 48-54). -/
inductive ePoseBlendState where
  | POSE_BLEND_INIT
  | POSE_BLEND_BLENDING
  | POSE_BLEND_ORIGINAL
  | POSE_BLEND_CONFIRM
  | POSE_BLEND_CANCEL
deriving DecidableEq, Inhabited

open ePoseBlendState

/-- Operator return values of the window-manager API used by the file. -/
inductive OperatorResult where
  | OPERATOR_RUNNING_MODAL
  | OPERATOR_CANCELLED
  | OPERATOR_FINISHED
deriving DecidableEq, Inhabited

open OperatorResult

/-- Event types that `poselib_blend_handle_event` dispatches on, plus a
catch-all constructor for every other event type (the C switch default). -/
inductive EventType where
  | MOUSEMOVE
  | EVT_ESCKEY
  | RIGHTMOUSE
  | LEFTMOUSE
  | EVT_RETKEY
  | EVT_PADENTER
  | EVT_SPACEKEY
  | EVT_TABKEY
  | EVT_FKEY
  | EVENT_NONE
deriving DecidableEq, Inhabited

open EventType

/-- Event values (`event->val`) distinguished by the handler. -/
inductive EventVal where
  | KM_PRESS
  | KM_RELEASE
  | KM_NOTHING
deriving DecidableEq, Inhabited

open EventVal

/-- A window-manager event: its type, its press/release value, and (modelled
from the spec, section 4.4) the factor value the slider's pointer-displacement
mapping would produce for a pointer-motion event. -/
structure wmEvent where
  etype : EventType
  eval : EventVal
  target_factor : ℚ
deriving DecidableEq, Inhabited

/-- One bone of the rig: name, selection flag and its current local
transform (collapsed to one rational channel, enough for the snapshot /
restore / blend bookkeeping the claims are about). -/
structure Bone where
  name : String
  selected : Bool
  transform : ℚ
deriving DecidableEq, Inhabited

/-- A pose Action: its `bActionGroup` list, one group per bone name, each
carrying the channel value the pose stores for that bone. -/
structure bAction where
  groups : List (String × ℚ)
deriving DecidableEq, Inhabited

/-- Modelled from the spec: `PoseBackup` (BKE_pose_backup, external to the
file) is a sparse snapshot (bone identifier to saved transform), plus the
"selection-relevant" flag reported by `BKE_pose_backup_is_selection_relevant`. -/
structure PoseBackup where
  entries : List (String × ℚ)
  selection_relevant : Bool
deriving DecidableEq, Inhabited

/-- Modelled from the spec: `BKE_pose_backup_create_selected_bones` (external
to the file).  For every bone named in the pose's groups that exists on the
rig: if any bone in that set is selected, record only the selected bones
(selection-relevant), otherwise record all of them. -/
def BKE_pose_backup_create_selected_bones (rig : List Bone) (act : bAction) :
    PoseBackup :=
  let names := act.groups.map Prod.fst
  let affected := rig.filter (fun b => names.contains b.name)
  if affected.any (fun b => b.selected) then
    { entries := (affected.filter (fun b => b.selected)).map
        (fun b => (b.name, b.transform)),
      selection_relevant := true }
  else
    { entries := affected.map (fun b => (b.name, b.transform)),
      selection_relevant := false }

/-- Modelled from the spec: `BKE_pose_backup_restore` (external to the file)
writes every recorded transform back onto the matching bone by identifier;
recorded bones missing from the rig are skipped. -/
def BKE_pose_backup_restore (b : PoseBackup) (rig : List Bone) : List Bone :=
  rig.map (fun bone =>
    match b.entries.find? (fun p => p.1 == bone.name) with
    | some p => { bone with transform := p.2 }
    | none => bone)

/-- Modelled from the spec: `BKE_pose_apply_action_blend` (external to the
file) interpolates each affected bone between its current (restored)
transform and the pose's stored transform at the given factor; like the pose
backup, the affected set is limited to the selected bones when any affected
bone is selected (sections 4.1, 4.2 and the round-trip law of section 8). -/
def BKE_pose_apply_action_blend (rig : List Bone) (act : bAction)
    (factor : ℚ) : List Bone :=
  let names := act.groups.map Prod.fst
  let affected := rig.filter (fun b => names.contains b.name)
  let limit_to_selected := affected.any (fun b => b.selected)
  rig.map (fun bone =>
    if limit_to_selected ∧ ¬bone.selected then bone
    else
      match act.groups.find? (fun p => p.1 == bone.name) with
      | some p => { bone with transform :=
          bone.transform + factor * (p.2 - bone.transform) }
      | none => bone)

/-- Modelled from the spec: left/right bone-name remapping used by the
mirroring of `BKE_action_flip_with_pose`. -/
def flipBoneName (s : String) : String :=
  if s.endsWith ".L" then s.dropRight 1 ++ "R"
  else if s.endsWith ".R" then s.dropRight 1 ++ "L"
  else s

/-- Modelled from the spec: `BKE_action_flip_with_pose` (external to the
file) mirrors every bone channel across the rig's sagittal axis and retargets
it to the bone's named mirror counterpart. -/
def BKE_action_flip_with_pose (a : bAction) : bAction :=
  { groups := a.groups.map (fun p => (flipBoneName p.1, -p.2)) }

/-- Modelled from the spec: the slider state of `ED_slider` (external to the
file): the current factor, and whether overshoot beyond [0,1] is allowed. -/
structure tSlider where
  factor : ℚ
  allow_overshoot : Bool
deriving DecidableEq, Inhabited

/-- The `CLAMPIS(a, b, c)` macro of BLI_math:
`(a) < (b) ? (b) : (a) > (c) ? (c) : (a)`. -/
def CLAMPIS (a b c : ℚ) : ℚ :=
  if a < b then b else if a > c then c else a

/-- Modelled from the spec: `ED_slider_modal` (external to the file)
translates continuous pointer motion into a factor; only pointer-motion
events move the factor, and with overshoot disallowed the produced factor is
hard-clamped to [0,1]. -/
def ED_slider_modal (s : tSlider) (e : wmEvent) : tSlider :=
  if e.etype = MOUSEMOVE then
    { s with factor :=
        if s.allow_overshoot then e.target_factor
        else CLAMPIS e.target_factor 0 1 }
  else s

/-- The `PoseBlendData` struct (lines 56-84), restricted to the fields the
session logic reads and writes.  `act` is an index into the `bAction` ID
store of the `World`; `slider` is `none` on the one-shot path, where no
event is available. -/
structure PoseBlendData where
  state : ePoseBlendState
  needs_redraw : Bool
  use_release_confirm : Bool
  init_event_type : EventType
  blend_factor : ℚ
  pose_backup : PoseBackup
  act : Nat
  free_action : Bool
  slider : Option tSlider
deriving DecidableEq, Inhabited

/-- The two pose flags of `ob->pose->flag` that the file manipulates. -/
structure PoseFlags where
  pose_locked : Bool
  pose_do_unlock : Bool
deriving DecidableEq, Inhabited

/-- The operator's RNA properties (`op->ptr`): "blend_factor", "flipped",
"release_confirm". -/
structure OperatorProps where
  blend_factor : ℚ
  flipped : Bool
  release_confirm : Bool
deriving DecidableEq, Inhabited

/-- Depsgraph tags, notifiers and synthetic events the file emits. -/
inductive Tag where
  | deg_tag_geometry
  | notifier_object_pose
  | notifier_keyframe_edited
  | event_mousemove
deriving DecidableEq, Inhabited

/-- The whole mutable state the operator touches: the session data
(`op->customdata`, nullable), the rig's bones, the `bAction` ID store (new
IDs are appended; `BKE_id_free` records the freed index), the window-manager
interface lock, the pose flags, the operator properties, reports, emitted
tags, auto-keyed bone names, and the context facts the init path checks. -/
structure World where
  customdata : Option PoseBlendData
  rig : List Bone
  actions : List bAction
  wm_locked : Bool
  pose_flags : PoseFlags
  props : OperatorProps
  reports : List String
  tags : List Tag
  freed_actions : List Nat
  keyed : List String
  ob_present : Bool
  asset : Option bAction
  can_autokey : Bool
deriving DecidableEq, Inhabited

/-- `poselib_backup_posecopy` (lines 89-97): create the pose backup from the
current rig and the session's action; if the state is still INIT, advance it
to BLENDING. -/
def poselib_backup_posecopy (rig : List Bone) (actions : List bAction)
    (pbd : PoseBlendData) : PoseBlendData :=
  let backup := BKE_pose_backup_create_selected_bones rig
    (actions.getD pbd.act default)
  let st := if pbd.state = POSE_BLEND_INIT then POSE_BLEND_BLENDING
            else pbd.state
  { pbd with pose_backup := backup, state := st }

/-- `poselib_blend_set_factor` (lines 176-180): store the clamped factor and
mark the session dirty. -/
def poselib_blend_set_factor (pbd : PoseBlendData) (new_factor : ℚ) :
    PoseBlendData :=
  { pbd with blend_factor := CLAMPIS new_factor 0 1, needs_redraw := true }

/-- `flip_pose` (lines 267-281): copy the action into a fresh ID (appended to
the store), lock the window-manager interface, flip the copy, and restore the
lock to the value it had on entry.  Returns the updated store, the new
action's index, the final interface-lock value, and the trace of values the
lock was set to, in order. -/
def flip_pose (wm_locked : Bool) (store : List bAction) (aid : Nat) :
    List bAction × Nat × Bool × List Bool :=
  let action_copy := store.getD aid default
  let interface_was_locked := wm_locked
  let flipped := BKE_action_flip_with_pose action_copy
  (store ++ [flipped], store.length, interface_was_locked,
    [true, interface_was_locked])

/-- `poselib_blend_flip_pose` (lines 284-305): flip the target pose the
interactive blend operator is using — restore the backup first, free it,
free the old action if session-owned, install the new action as owned, mark
dirty, and refresh the pose backup from the flipped bones. -/
def poselib_blend_flip_pose (w : World) : World :=
  match w.customdata with
  | none => w
  | some pbd =>
    let old_aid := pbd.act
    let fp := flip_pose w.wm_locked w.actions old_aid
    let store := fp.1
    let new_aid := fp.2.1
    let wm := fp.2.2.1
    let rig := BKE_pose_backup_restore pbd.pose_backup w.rig
    let freed := if pbd.free_action then w.freed_actions ++ [old_aid]
                 else w.freed_actions
    let pbd := { pbd with
      free_action := true,
      act := new_aid,
      needs_redraw := true }
    let pbd := poselib_backup_posecopy rig store pbd
    { w with
      customdata := some pbd,
      actions := store,
      wm_locked := wm,
      rig := rig,
      freed_actions := freed }

/-- `poselib_blend_handle_event` (lines 183-236): run the slider on the
event, store the clamped slider factor, then dispatch: mouse-move returns,
release-confirm has priority, only press/nothing values act, then the switch
over cancel / confirm / tab-toggle / flip keys. -/
def poselib_blend_handle_event (w : World) (e : wmEvent) :
    World × OperatorResult :=
  match w.customdata with
  | none => (w, OPERATOR_RUNNING_MODAL)
  | some pbd =>
    let slider := pbd.slider.map (fun s => ED_slider_modal s e)
    let factor := match slider with
      | some s => s.factor
      | none => 0
    let pbd := poselib_blend_set_factor { pbd with slider := slider } factor
    let w := { w with customdata := some pbd }
    if e.etype = MOUSEMOVE then
      (w, OPERATOR_RUNNING_MODAL)
    else if pbd.use_release_confirm ∧ e.etype = pbd.init_event_type ∧
        e.eval = KM_RELEASE then
      ({ w with customdata := some { pbd with state := POSE_BLEND_CONFIRM } },
        OPERATOR_RUNNING_MODAL)
    else if ¬(e.eval = KM_PRESS ∨ e.eval = KM_NOTHING) then
      (w, OPERATOR_RUNNING_MODAL)
    else
      match e.etype with
      | EVT_ESCKEY | RIGHTMOUSE =>
        ({ w with customdata := some { pbd with state := POSE_BLEND_CANCEL } },
          OPERATOR_RUNNING_MODAL)
      | LEFTMOUSE | EVT_RETKEY | EVT_PADENTER | EVT_SPACEKEY =>
        ({ w with customdata := some { pbd with state := POSE_BLEND_CONFIRM } },
          OPERATOR_RUNNING_MODAL)
      | EVT_TABKEY =>
        ({ w with customdata := some { pbd with
            state := if pbd.state = POSE_BLEND_BLENDING then POSE_BLEND_ORIGINAL
                     else POSE_BLEND_BLENDING,
            needs_redraw := true } },
          OPERATOR_RUNNING_MODAL)
      | EVT_FKEY => (poselib_blend_flip_pose w, OPERATOR_RUNNING_MODAL)
      | _ => (w, OPERATOR_RUNNING_MODAL)

/-- `poselib_keytag_pose` (lines 102-145): if auto-keying applies, collect
every bone named in the action's groups that exists on the rig and — when the
backup is selection-relevant — is selected, and hand them to the keying set;
emit the keyframe-edited notifier. -/
def poselib_keytag_pose (w : World) (pbd : PoseBlendData) : World :=
  if ¬w.can_autokey then w
  else
    let act := w.actions.getD pbd.act default
    let names := (act.groups.map Prod.fst).filter (fun n =>
      match w.rig.find? (fun b => b.name == n) with
      | none => false
      | some b =>
        if pbd.pose_backup.selection_relevant ∧ ¬b.selected then false
        else true)
    { w with
      keyed := w.keyed ++ names,
      tags := w.tags ++ [Tag.notifier_keyframe_edited] }

/-- `poselib_blend_apply` (lines 148-172): gated on `needs_redraw` (early
return if clear), clears it, restores the backup, tags the depsgraph and
notifies, and — only in the BLENDING state — blends the action onto the rig
at the stored factor. -/
def poselib_blend_apply (w : World) : World :=
  match w.customdata with
  | none => w
  | some pbd =>
    if pbd.needs_redraw = false then w
    else
      let pbd := { pbd with needs_redraw := false }
      let rig := BKE_pose_backup_restore pbd.pose_backup w.rig
      let w := { w with
        customdata := some pbd,
        rig := rig,
        tags := w.tags ++ [Tag.deg_tag_geometry, Tag.notifier_object_pose] }
      if pbd.state ≠ POSE_BLEND_BLENDING then w
      else
        let blended :=
          BKE_pose_apply_action_blend rig (w.actions.getD pbd.act default)
            pbd.blend_factor
        { w with rig := blended }

/-- `poselib_blend_init_data` (lines 308-375): check the pose-lib object,
allocate zeroed session data, resolve the pose asset (appending it to the ID
store), maybe flip it, read the properties, set up the slider and
release-confirm info when an event is available, take the pose backup
(advancing INIT to BLENDING), and lock the pose flags.  Returns success plus
the updated world. -/
def poselib_blend_init_data (w : World) (event : Option wmEvent) :
    Bool × World :=
  let w := { w with customdata := none }
  if w.ob_present = false then
    (false, { w with reports := w.reports ++
      ["Pose lib is only for armatures in pose mode"] })
  else
    let w := { w with customdata := some default }
    match w.asset with
    | none => (false, w)
    | some a =>
      let actions := w.actions ++ [a]
      let aid := w.actions.length
      let flip_result :=
        if w.props.flipped then
          let fp := flip_pose w.wm_locked actions aid
          (fp.1, fp.2.1, fp.2.2.1, true)
        else (actions, aid, w.wm_locked, false)
      let actions := flip_result.1
      let aid := flip_result.2.1
      let wm := flip_result.2.2.1
      let owns := flip_result.2.2.2
      let use_rc := event.isSome ∧ w.props.release_confirm
      let slider := event.map (fun _ =>
        ({ factor := w.props.blend_factor, allow_overshoot := false } :
          tSlider))
      let init_ev := match event with
        | some e => e.etype
        | none => EVENT_NONE
      let pbd : PoseBlendData :=
        { state := POSE_BLEND_INIT, needs_redraw := true,
          use_release_confirm := decide use_rc, init_event_type := init_ev,
          blend_factor := w.props.blend_factor, pose_backup := default,
          act := aid, free_action := owns, slider := slider }
      let pbd := poselib_backup_posecopy w.rig actions pbd
      let flags : PoseFlags := { pose_do_unlock := false, pose_locked := true }
      (true, { w with
        customdata := some pbd,
        actions := actions,
        wm_locked := wm,
        pose_flags := flags })

/-- `poselib_blend_cleanup` (lines 377-420): request the pose unlock, then
per state — CONFIRM: auto-key and write the actually-used blend factor back
into the operator property; INIT/BLENDING/ORIGINAL: report the internal
error and fall through; CANCEL: restore the backup.  Finally tag the
depsgraph, notify, and add a synthetic mouse-move. -/
def poselib_blend_cleanup (w : World) : World :=
  match w.customdata with
  | none => w
  | some pbd =>
    let w := { w with pose_flags :=
      { w.pose_flags with pose_do_unlock := true } }
    let w :=
      match pbd.state with
      | POSE_BLEND_CONFIRM =>
        let w := poselib_keytag_pose w pbd
        { w with props := { w.props with blend_factor := pbd.blend_factor } }
      | POSE_BLEND_INIT | POSE_BLEND_BLENDING | POSE_BLEND_ORIGINAL =>
        let w := { w with reports := w.reports ++
          ["Internal pose library error, canceling operator"] }
        { w with rig := BKE_pose_backup_restore pbd.pose_backup w.rig }
      | POSE_BLEND_CANCEL =>
        { w with rig := BKE_pose_backup_restore pbd.pose_backup w.rig }
    { w with tags := w.tags ++
      [Tag.deg_tag_geometry, Tag.notifier_object_pose, Tag.event_mousemove] }

/-- `poselib_blend_free` (lines 422-441): free the owned action (recorded in
the freed list), free the backup, and clear `op->customdata`. -/
def poselib_blend_free (w : World) : World :=
  match w.customdata with
  | none => w
  | some pbd =>
    let freed := if pbd.free_action then w.freed_actions ++ [pbd.act]
                 else w.freed_actions
    { w with freed_actions := freed, customdata := none }

/-- `poselib_blend_exit` (lines 443-458): remember the state, clean up, free,
and return CANCELLED exactly when the remembered state was CANCEL, FINISHED
otherwise. -/
def poselib_blend_exit (w : World) : World × OperatorResult :=
  let exit_state := match w.customdata with
    | some pbd => pbd.state
    | none => POSE_BLEND_INIT
  let w := poselib_blend_free (poselib_blend_cleanup w)
  (w, if exit_state = POSE_BLEND_CANCEL then OPERATOR_CANCELLED
      else OPERATOR_FINISHED)

/-- `poselib_blend_cancel` (lines 461-466): the host-initiated abort — force
the CANCEL state and run the exit path. -/
def poselib_blend_cancel (w : World) : World :=
  match w.customdata with
  | none => w
  | some pbd =>
    let pbd := { pbd with state := POSE_BLEND_CANCEL }
    (poselib_blend_exit { w with customdata := some pbd }).1

/-- `poselib_blend_modal` (lines 469-503): handle the event; if a terminal
state was reached, exit; otherwise redraw (status text, then
`poselib_blend_apply`) when dirty. -/
def poselib_blend_modal (w : World) (e : wmEvent) : World × OperatorResult :=
  let he := poselib_blend_handle_event w e
  let w := he.1
  let operator_result := he.2
  match w.customdata with
  | none => (w, operator_result)
  | some pbd =>
    if pbd.state = POSE_BLEND_CONFIRM ∨ pbd.state = POSE_BLEND_CANCEL then
      poselib_blend_exit w
    else if pbd.needs_redraw then (poselib_blend_apply w, operator_result)
    else (w, operator_result)

/-- `poselib_blend_invoke` (lines 506-521): init with the event; on failure
free and return CANCELLED, else do the initial apply and keep running
modally. -/
def poselib_blend_invoke (w : World) (event : wmEvent) :
    World × OperatorResult :=
  let ini := poselib_blend_init_data w (some event)
  if ini.1 = false then (poselib_blend_free ini.2, OPERATOR_CANCELLED)
  else (poselib_blend_apply ini.2, OPERATOR_RUNNING_MODAL)

/-- `poselib_blend_exec` (lines 524-536): the one-shot path — init without
an event; on failure free and return CANCELLED, else apply once, set
CONFIRM, and exit. -/
def poselib_blend_exec (w : World) : World × OperatorResult :=
  let ini := poselib_blend_init_data w none
  if ini.1 = false then (poselib_blend_free ini.2, OPERATOR_CANCELLED)
  else
    let w := poselib_blend_apply ini.2
    let w := match w.customdata with
      | some pbd => { w with customdata := some { pbd with state := POSE_BLEND_CONFIRM } }
      | none => w
    poselib_blend_exit w

/-! ## Helper lemmas -/

/-- The clamp macro lands in the requested interval. -/
theorem CLAMPIS_bounds (f : ℚ) : 0 ≤ CLAMPIS f 0 1 ∧ CLAMPIS f 0 1 ≤ 1 := by
  unfold CLAMPIS
  split_ifs with h1 h2
  · exact ⟨le_refl 0, by norm_num⟩
  · exact ⟨by norm_num, le_refl 1⟩
  · exact ⟨le_of_not_lt h1, le_of_not_lt h2⟩

/-- The flip handler never changes the stored blend factor, so it preserves
any bound on it. -/
theorem flip_pose_bf_bound (w : World)
    (hb : ∀ pbd, w.customdata = some pbd →
      0 ≤ pbd.blend_factor ∧ pbd.blend_factor ≤ 1)
    (pbd2 : PoseBlendData)
    (h : (poselib_blend_flip_pose w).customdata = some pbd2) :
    0 ≤ pbd2.blend_factor ∧ pbd2.blend_factor ≤ 1 := by
  unfold poselib_blend_flip_pose poselib_backup_posecopy at h
  rcases hc : w.customdata with _ | pbd
  · rw [hc] at h
    exact hb pbd2 h
  · rw [hc] at h
    simp at h
    have hbb := hb pbd hc
    rw [← h]
    simpa using hbb

/-! ## Claim theorems -/

/-- C1: every factor routed through `poselib_blend_set_factor` — including
the call made for every modal event with the slider's factor — leaves the
stored `blend_factor` hard-clamped into the closed interval [0, 1], for any
requested value (for example -0.4 or 1.7). -/
theorem C1_blend_factor_always_clamped :
    (∀ (pbd : PoseBlendData) (f : ℚ),
      0 ≤ (poselib_blend_set_factor pbd f).blend_factor ∧
      (poselib_blend_set_factor pbd f).blend_factor ≤ 1) ∧
    (∀ (w : World) (e : wmEvent) (pbd2 : PoseBlendData),
      (poselib_blend_handle_event w e).1.customdata = some pbd2 →
      0 ≤ pbd2.blend_factor ∧ pbd2.blend_factor ≤ 1) := by
  constructor
  · intro pbd f
    unfold poselib_blend_set_factor
    exact CLAMPIS_bounds f
  · intro w e pbd2 h
    unfold poselib_blend_handle_event at h
    rcases hc : w.customdata with _ | pbd
    · rw [hc] at h
      simp at h
      simp [hc] at h
    · rw [hc] at h
      simp only at h
      split at h
      · -- mouse-move branch
        simp at h
        rw [← h]
        unfold poselib_blend_set_factor
        exact CLAMPIS_bounds _
      split at h
      · -- release-confirm branch
        simp at h
        rw [← h]
        unfold poselib_blend_set_factor
        exact CLAMPIS_bounds _
      split at h
      · -- ignored event-value branch
        simp at h
        rw [← h]
        unfold poselib_blend_set_factor
        exact CLAMPIS_bounds _
      · -- the switch over event types
        split at h <;>
          first
          | (simp at h
             rw [← h]
             unfold poselib_blend_set_factor
             exact CLAMPIS_bounds _)
          | (refine flip_pose_bf_bound _ ?_ pbd2 h
             intro p hp
             simp at hp
             rw [← hp]
             unfold poselib_blend_set_factor
             exact CLAMPIS_bounds _)


/-! ## Concrete fixtures for witnesses -/

/-- A small rig: a selected right arm, an unselected left arm and head. -/
def testRig : List Bone :=
  [⟨"arm.L", false, 1⟩, ⟨"arm.R", true, 2⟩, ⟨"head", false, 3⟩]

/-- A pose asset touching both arms. -/
def testAction : bAction := ⟨[("arm.L", 10), ("arm.R", 20)]⟩

/-- A world with a valid pose-lib object and a resolvable asset, before any
session is opened. -/
def testWorld : World :=
  { customdata := none, rig := testRig, actions := [testAction],
    wm_locked := false, pose_flags := ⟨false, false⟩,
    props := ⟨(1 : ℚ)/2, false, false⟩, reports := [], tags := [],
    freed_actions := [], keyed := [], ob_present := true,
    asset := some testAction, can_autokey := true }

/-- The backup the session takes over `testRig` for `testAction`. -/
def testBackup : PoseBackup :=
  BKE_pose_backup_create_selected_bones testRig testAction

/-- A live blending session over the fixtures. -/
def testPbd : PoseBlendData :=
  { state := POSE_BLEND_BLENDING, needs_redraw := false,
    use_release_confirm := false, init_event_type := MOUSEMOVE,
    blend_factor := (1 : ℚ)/2, pose_backup := testBackup, act := 0,
    free_action := false, slider := some ⟨(1 : ℚ)/2, false⟩ }

/-- The world of `testWorld` with the live session installed. -/
def testWorldS : World := { testWorld with customdata := some testPbd }

/-- A Tab key press event. -/
def evTab : wmEvent := ⟨EVT_TABKEY, KM_PRESS, 0⟩

/-- An Escape key press event. -/
def evEsc : wmEvent := ⟨EVT_ESCKEY, KM_PRESS, 0⟩

/-- An F key press event. -/
def evFlip : wmEvent := ⟨EVT_FKEY, KM_PRESS, 0⟩

/-- The session data after handling a Tab press on `testWorldS`. -/
def testPbdAfterTab : PoseBlendData :=
  { testPbd with
    state := POSE_BLEND_ORIGINAL,
    needs_redraw := true,
    blend_factor := CLAMPIS ((1 : ℚ)/2) 0 1 }

/-- Witness for C1 at the out-of-range factors 17/10 and -2/5, and at a
concrete handled event. -/
theorem C1_blend_factor_always_clamped_witness :
    (0 ≤ (poselib_blend_set_factor testPbd ((17 : ℚ)/10)).blend_factor ∧
      (poselib_blend_set_factor testPbd ((17 : ℚ)/10)).blend_factor ≤ 1) ∧
    (0 ≤ (poselib_blend_set_factor testPbd (-(2 : ℚ)/5)).blend_factor ∧
      (poselib_blend_set_factor testPbd (-(2 : ℚ)/5)).blend_factor ≤ 1) ∧
    (0 ≤ testPbdAfterTab.blend_factor ∧ testPbdAfterTab.blend_factor ≤ 1) :=
  ⟨C1_blend_factor_always_clamped.1 testPbd ((17 : ℚ)/10),
   C1_blend_factor_always_clamped.1 testPbd (-(2 : ℚ)/5),
   C1_blend_factor_always_clamped.2 testWorldS evTab testPbdAfterTab (by rfl)⟩

/-- Auto-key tagging only appends keyed names and notifiers; every other
component of the world is untouched. -/
theorem keytag_fields (w : World) (pbd : PoseBlendData) :
    (poselib_keytag_pose w pbd).props = w.props ∧
    (poselib_keytag_pose w pbd).rig = w.rig ∧
    (poselib_keytag_pose w pbd).pose_flags = w.pose_flags ∧
    (poselib_keytag_pose w pbd).customdata = w.customdata ∧
    (poselib_keytag_pose w pbd).freed_actions = w.freed_actions ∧
    (poselib_keytag_pose w pbd).reports = w.reports := by
  unfold poselib_keytag_pose
  split <;> simp

/-- Freeing the session leaves the rig, properties, flags, reports and tags
alone. -/
theorem free_fields (w : World) :
    (poselib_blend_free w).rig = w.rig ∧
    (poselib_blend_free w).props = w.props ∧
    (poselib_blend_free w).pose_flags = w.pose_flags ∧
    (poselib_blend_free w).reports = w.reports ∧
    (poselib_blend_free w).tags = w.tags ∧
    (poselib_blend_free w).customdata = none := by
  unfold poselib_blend_free
  rcases hc : w.customdata with _ | pbd <;> simp [hc]

/-- Teardown in the CANCEL state: the full resulting world. -/
theorem cleanup_cancel_eq (w : World) (pbd : PoseBlendData)
    (h : w.customdata = some pbd) (hs : pbd.state = POSE_BLEND_CANCEL) :
    poselib_blend_cleanup w = { w with
      pose_flags := { w.pose_flags with pose_do_unlock := true },
      rig := BKE_pose_backup_restore pbd.pose_backup w.rig,
      tags := w.tags ++
        [Tag.deg_tag_geometry, Tag.notifier_object_pose, Tag.event_mousemove] } := by
  unfold poselib_blend_cleanup
  rw [h]
  simp only
  rw [hs]

/-- The exit path entered in the CANCEL state restores the backup and
returns CANCELLED. -/
theorem exit_cancel (w : World) (pbd : PoseBlendData)
    (h : w.customdata = some pbd) (hs : pbd.state = POSE_BLEND_CANCEL) :
    (poselib_blend_exit w).1.rig =
      BKE_pose_backup_restore pbd.pose_backup w.rig ∧
    (poselib_blend_exit w).2 = OPERATOR_CANCELLED := by
  unfold poselib_blend_exit
  rw [h]
  constructor
  · have hfree := (free_fields (poselib_blend_cleanup w)).1
    simp only at hfree ⊢
    rw [hfree, cleanup_cancel_eq w pbd h hs]
  · simp [hs]

/-- Handling an Escape or right-mouse press: the world is unchanged except
that the session stores the slider factor and moves to CANCEL. -/
theorem handle_event_cancel_key (w : World) (pbd : PoseBlendData)
    (e : wmEvent) (h : w.customdata = some pbd)
    (ht : e.etype = EVT_ESCKEY ∨ e.etype = RIGHTMOUSE)
    (hv : e.eval = KM_PRESS) :
    ∃ pbd2, (poselib_blend_handle_event w e).1 =
        { w with customdata := some pbd2 } ∧
      pbd2.state = POSE_BLEND_CANCEL ∧
      pbd2.pose_backup = pbd.pose_backup ∧
      (poselib_blend_handle_event w e).2 = OPERATOR_RUNNING_MODAL := by
  unfold poselib_blend_handle_event
  rw [h]
  simp only
  rcases e with ⟨et, ev, tf⟩
  simp only at ht hv
  subst hv
  rcases ht with ht | ht <;> subst ht <;>
    · rw [if_neg (by simp), if_neg (by simp), if_neg (by simp)]
      exact ⟨_, rfl, rfl, rfl, rfl⟩

/-- C2: whenever the session reaches the CANCEL terminal state — explicit
cancel input (Escape / right mouse) or the host-initiated abort callback —
the exit path restores the pose backup onto the rig unconditionally,
whatever the rig currently contains, and the operator returns CANCELLED. -/
theorem C2_cancel_restores_backup_unconditionally :
    (∀ (w : World) (pbd : PoseBlendData), w.customdata = some pbd →
      pbd.state = POSE_BLEND_CANCEL →
      (poselib_blend_exit w).1.rig =
        BKE_pose_backup_restore pbd.pose_backup w.rig ∧
      (poselib_blend_exit w).2 = OPERATOR_CANCELLED) ∧
    (∀ (w : World) (e : wmEvent) (pbd : PoseBlendData),
      w.customdata = some pbd →
      (e.etype = EVT_ESCKEY ∨ e.etype = RIGHTMOUSE) → e.eval = KM_PRESS →
      (poselib_blend_modal w e).1.rig =
        BKE_pose_backup_restore pbd.pose_backup w.rig ∧
      (poselib_blend_modal w e).2 = OPERATOR_CANCELLED) ∧
    (∀ (w : World) (pbd : PoseBlendData), w.customdata = some pbd →
      (poselib_blend_cancel w).rig =
        BKE_pose_backup_restore pbd.pose_backup w.rig) := by
  refine ⟨?_, ?_, ?_⟩
  · intro w pbd h hs
    exact exit_cancel w pbd h hs
  · intro w e pbd h ht hv
    obtain ⟨pbd2, hw, hst, hbk, hres⟩ := handle_event_cancel_key w pbd e h ht hv
    unfold poselib_blend_modal
    simp only
    rw [hw]
    simp only
    rw [hst]
    rw [if_pos (Or.inr rfl)]
    obtain ⟨h1, h2⟩ :=
      exit_cancel { w with customdata := some pbd2 } pbd2 rfl hst
    rw [h1, h2]
    simp [hbk]
  · intro w pbd h
    unfold poselib_blend_cancel
    rw [h]
    simp only
    exact (exit_cancel _ { pbd with state := POSE_BLEND_CANCEL } rfl rfl).1

/-- The session of `testPbd` after an explicit cancel. -/
def testPbdCancel : PoseBlendData := { testPbd with state := POSE_BLEND_CANCEL }

/-- The world of `testWorldS` with the session already cancelled. -/
def testWorldC : World := { testWorld with customdata := some testPbdCancel }

/-- Witness for C2 on the concrete cancelled session, the Escape press, and
the host abort callback. -/
theorem C2_cancel_restores_backup_unconditionally_witness :
    ((poselib_blend_exit testWorldC).1.rig =
        BKE_pose_backup_restore testPbdCancel.pose_backup testWorldC.rig ∧
      (poselib_blend_exit testWorldC).2 = OPERATOR_CANCELLED) ∧
    ((poselib_blend_modal testWorldS evEsc).1.rig =
        BKE_pose_backup_restore testPbd.pose_backup testWorldS.rig ∧
      (poselib_blend_modal testWorldS evEsc).2 = OPERATOR_CANCELLED) ∧
    ((poselib_blend_cancel testWorldS).rig =
      BKE_pose_backup_restore testPbd.pose_backup testWorldS.rig) :=
  ⟨C2_cancel_restores_backup_unconditionally.1 testWorldC testPbdCancel rfl rfl,
   C2_cancel_restores_backup_unconditionally.2.1 testWorldS evEsc testPbd rfl
     (Or.inl rfl) rfl,
   C2_cancel_restores_backup_unconditionally.2.2 testWorldS testPbd rfl⟩

/-- C3: in the Blending or ShowingOriginal state, a Tab key press swaps the
state between the two and marks the session dirty, while the stored blend
factor is left unchanged (given the invariant, maintained by every factor
update, that the stored factor is the clamped slider factor). -/
theorem C3_tab_toggle_keeps_factor :
    ∀ (w : World) (e : wmEvent) (pbd : PoseBlendData) (s : tSlider),
      w.customdata = some pbd →
      (pbd.state = POSE_BLEND_BLENDING ∨ pbd.state = POSE_BLEND_ORIGINAL) →
      e.etype = EVT_TABKEY → e.eval = KM_PRESS →
      pbd.slider = some s →
      pbd.blend_factor = CLAMPIS s.factor 0 1 →
      ∃ pbd2, (poselib_blend_handle_event w e).1 =
          { w with customdata := some pbd2 } ∧
        pbd2.state = (if pbd.state = POSE_BLEND_BLENDING then
          POSE_BLEND_ORIGINAL else POSE_BLEND_BLENDING) ∧
        pbd2.needs_redraw = true ∧
        pbd2.blend_factor = pbd.blend_factor := by
  intro w e pbd s h hstate htype hval hsl hinv
  rcases e with ⟨et, ev, tf⟩
  simp only at htype hval
  subst htype
  subst hval
  unfold poselib_blend_handle_event
  rw [h]
  simp only
  rw [if_neg (by simp), if_neg (by simp), if_neg (by simp)]
  refine ⟨_, rfl, rfl, rfl, ?_⟩
  simp only [poselib_blend_set_factor, hsl, Option.map_some]
  rw [hinv]
  rfl

/-- Witness for C3: a Tab press on the live blending session. -/
theorem C3_tab_toggle_keeps_factor_witness :
    ∃ pbd2, (poselib_blend_handle_event testWorldS evTab).1 =
        { testWorldS with customdata := some pbd2 } ∧
      pbd2.state = (if testPbd.state = POSE_BLEND_BLENDING then
        POSE_BLEND_ORIGINAL else POSE_BLEND_BLENDING) ∧
      pbd2.needs_redraw = true ∧
      pbd2.blend_factor = testPbd.blend_factor :=
  C3_tab_toggle_keeps_factor testWorldS evTab testPbd ⟨(1 : ℚ)/2, false⟩
    rfl (Or.inl rfl) rfl rfl rfl (by norm_num [testPbd, CLAMPIS])

/-- C4: handling a flip in Blending or ShowingOriginal restores the backup
onto the rig, frees the old action exactly when it was session-owned,
installs the freshly flipped copy as a new owned action, marks the session
dirty, rebuilds the backup from the restored rig and the new pose, restores
the interface lock, and leaves the session state unchanged. -/
theorem C4_flip_restores_swaps_and_keeps_state :
    ∀ (w : World) (pbd : PoseBlendData), w.customdata = some pbd →
      (pbd.state = POSE_BLEND_BLENDING ∨ pbd.state = POSE_BLEND_ORIGINAL) →
      (poselib_blend_flip_pose w).rig =
        BKE_pose_backup_restore pbd.pose_backup w.rig ∧
      (poselib_blend_flip_pose w).wm_locked = w.wm_locked ∧
      (poselib_blend_flip_pose w).actions = w.actions ++
        [BKE_action_flip_with_pose (w.actions.getD pbd.act default)] ∧
      (poselib_blend_flip_pose w).freed_actions =
        (if pbd.free_action then w.freed_actions ++ [pbd.act]
         else w.freed_actions) ∧
      ∃ pbd2, (poselib_blend_flip_pose w).customdata = some pbd2 ∧
        pbd2.state = pbd.state ∧
        pbd2.free_action = true ∧
        pbd2.needs_redraw = true ∧
        pbd2.act = w.actions.length ∧
        pbd2.pose_backup = BKE_pose_backup_create_selected_bones
          (BKE_pose_backup_restore pbd.pose_backup w.rig)
          (BKE_action_flip_with_pose (w.actions.getD pbd.act default)) ∧
        pbd2.blend_factor = pbd.blend_factor := by
  intro w pbd h hstate
  unfold poselib_blend_flip_pose flip_pose poselib_backup_posecopy
  rw [h]
  refine ⟨rfl, rfl, rfl, rfl, ?_⟩
  refine ⟨_, rfl, ?_, rfl, rfl, rfl, ?_, rfl⟩
  · rcases hstate with hs | hs <;> rw [hs] <;> rfl
  · have hlast : (w.actions ++
        [BKE_action_flip_with_pose (w.actions.getD pbd.act default)]).getD
        w.actions.length default =
        BKE_action_flip_with_pose (w.actions.getD pbd.act default) := by
      simp [List.getD]
    rw [hlast]

/-- Witness for C4: the F-key flip on the live blending session. -/
theorem C4_flip_restores_swaps_and_keeps_state_witness :
    (poselib_blend_flip_pose testWorldS).rig =
      BKE_pose_backup_restore testPbd.pose_backup testWorldS.rig ∧
    (poselib_blend_flip_pose testWorldS).wm_locked = testWorldS.wm_locked ∧
    (poselib_blend_flip_pose testWorldS).actions = testWorldS.actions ++
      [BKE_action_flip_with_pose (testWorldS.actions.getD testPbd.act default)] ∧
    (poselib_blend_flip_pose testWorldS).freed_actions =
      (if testPbd.free_action then testWorldS.freed_actions ++ [testPbd.act]
       else testWorldS.freed_actions) ∧
    ∃ pbd2, (poselib_blend_flip_pose testWorldS).customdata = some pbd2 ∧
      pbd2.state = testPbd.state ∧
      pbd2.free_action = true ∧
      pbd2.needs_redraw = true ∧
      pbd2.act = testWorldS.actions.length ∧
      pbd2.pose_backup = BKE_pose_backup_create_selected_bones
        (BKE_pose_backup_restore testPbd.pose_backup testWorldS.rig)
        (BKE_action_flip_with_pose (testWorldS.actions.getD testPbd.act default)) ∧
      pbd2.blend_factor = testPbd.blend_factor :=
  C4_flip_restores_swaps_and_keeps_state testWorldS testPbd rfl (Or.inl rfl)

/-- C5: `flip_pose` mirrors only a freshly allocated copy of the action —
every pre-existing action in the ID store is untouched and the returned ID is
new — and the window-manager interface lock is first taken and then restored
to exactly the value it had on entry, on every path through the function. -/
theorem C5_flip_pose_copy_and_lock_restore :
    ∀ (locked : Bool) (store : List bAction) (aid : Nat),
      (flip_pose locked store aid).1.take store.length = store ∧
      (flip_pose locked store aid).2.1 = store.length ∧
      (flip_pose locked store aid).1.getD (flip_pose locked store aid).2.1
          default =
        BKE_action_flip_with_pose (store.getD aid default) ∧
      (flip_pose locked store aid).2.2.2 = [true, locked] ∧
      (flip_pose locked store aid).2.2.1 = locked := by
  intro locked store aid
  unfold flip_pose
  refine ⟨?_, rfl, ?_, rfl, rfl⟩
  · simp
  · simp [List.getD]

/-- Session initialization fails exactly when the pose-lib object is missing
or the pose asset cannot be resolved. -/
theorem init_data_fail_iff (w : World) (e : Option wmEvent) :
    (poselib_blend_init_data w e).1 = false ↔
      (w.ob_present = false ∨ w.asset = none) := by
  unfold poselib_blend_init_data
  rcases hob : w.ob_present with _ | _
  · simp [hob]
  · rcases ha : w.asset with _ | a <;> simp [hob, ha]

/-- The exit path returns FINISHED whenever the session is not in CANCEL. -/
theorem exit_not_cancel (w : World)
    (h : ∀ pbd, w.customdata = some pbd → ¬pbd.state = POSE_BLEND_CANCEL) :
    (poselib_blend_exit w).2 = OPERATOR_FINISHED := by
  unfold poselib_blend_exit
  rcases hc : w.customdata with _ | pbd
  · simp
  · simp [h pbd hc]

/-- C6: the one-shot path returns CANCELLED exactly when initialization
fails (missing rig/pose context or unresolvable asset); otherwise it returns
FINISHED (its only other outcome), and the session data is freed either
way. -/
theorem C6_exec_cancelled_iff_init_fails :
    ∀ w : World,
      ((poselib_blend_exec w).2 = OPERATOR_CANCELLED ↔
        (w.ob_present = false ∨ w.asset = none)) ∧
      ((poselib_blend_exec w).2 ≠ OPERATOR_CANCELLED →
        (poselib_blend_exec w).2 = OPERATOR_FINISHED) ∧
      (poselib_blend_exec w).1.customdata = none := by
  intro w
  have hfree : ∀ w2 : World, (poselib_blend_free w2).customdata = none :=
    fun w2 => (free_fields w2).2.2.2.2.2
  by_cases hfail : w.ob_present = false ∨ w.asset = none
  · have h1 : (poselib_blend_init_data w none).1 = false :=
      (init_data_fail_iff w none).mpr hfail
    have hexec : poselib_blend_exec w =
        (poselib_blend_free (poselib_blend_init_data w none).2,
          OPERATOR_CANCELLED) := by
      unfold poselib_blend_exec
      simp only [h1]
      simp
    rw [hexec]
    exact ⟨⟨fun _ => hfail, fun _ => rfl⟩, fun hne => absurd rfl hne, hfree _⟩
  · have h1 : (poselib_blend_init_data w none).1 = true := by
      rcases hinit : (poselib_blend_init_data w none).1 with _ | _
      · exact absurd ((init_data_fail_iff w none).mp hinit) hfail
      · rfl
    have hnc : ∀ pbd, (match (poselib_blend_apply
          (poselib_blend_init_data w none).2).customdata with
        | some pbd => { (poselib_blend_apply (poselib_blend_init_data w none).2)
            with customdata := some { pbd with state := POSE_BLEND_CONFIRM } }
        | none => poselib_blend_apply
            (poselib_blend_init_data w none).2).customdata = some pbd →
        ¬pbd.state = POSE_BLEND_CANCEL := by
      intro pbd hpbd
      rcases hap : (poselib_blend_apply
          (poselib_blend_init_data w none).2).customdata with _ | pbd0
      · rw [hap] at hpbd
        simp [hap] at hpbd
      · rw [hap] at hpbd
        simp at hpbd
        rw [← hpbd]
        simp
    have hFIN : (poselib_blend_exec w).2 = OPERATOR_FINISHED := by
      unfold poselib_blend_exec
      simp only [h1]
      rw [if_neg (by simp)]
      exact exit_not_cancel _ hnc
    refine ⟨?_, fun _ => hFIN, ?_⟩
    · rw [hFIN]
      simp [hfail]
    · unfold poselib_blend_exec
      simp only [h1]
      rw [if_neg (by simp)]
      exact hfree _

/-- A world whose pose asset cannot be resolved. -/
def testWorldNoAsset : World := { testWorld with asset := none }

/-- Witness for C6 on a world where initialization succeeds and on one where
the asset is unresolvable. -/
theorem C6_exec_cancelled_iff_init_fails_witness :
    (((poselib_blend_exec testWorld).2 = OPERATOR_CANCELLED ↔
        (testWorld.ob_present = false ∨ testWorld.asset = none)) ∧
      ((poselib_blend_exec testWorld).2 ≠ OPERATOR_CANCELLED →
        (poselib_blend_exec testWorld).2 = OPERATOR_FINISHED) ∧
      (poselib_blend_exec testWorld).1.customdata = none) ∧
    (((poselib_blend_exec testWorldNoAsset).2 = OPERATOR_CANCELLED ↔
        (testWorldNoAsset.ob_present = false ∨ testWorldNoAsset.asset = none)) ∧
      ((poselib_blend_exec testWorldNoAsset).2 ≠ OPERATOR_CANCELLED →
        (poselib_blend_exec testWorldNoAsset).2 = OPERATOR_FINISHED) ∧
      (poselib_blend_exec testWorldNoAsset).1.customdata = none) :=
  ⟨C6_exec_cancelled_iff_init_fails testWorld,
   C6_exec_cancelled_iff_init_fails testWorldNoAsset⟩

/-- C7: teardown in the CONFIRM state writes the session's final (clamped,
actually used) blend factor back into the operator's "blend_factor"
property; teardown in the CANCEL state leaves the operator properties
untouched. -/
theorem C7_confirm_writes_back_factor :
    (∀ (w : World) (pbd : PoseBlendData), w.customdata = some pbd →
      pbd.state = POSE_BLEND_CONFIRM →
      (poselib_blend_cleanup w).props.blend_factor = pbd.blend_factor) ∧
    (∀ (w : World) (pbd : PoseBlendData), w.customdata = some pbd →
      pbd.state = POSE_BLEND_CANCEL →
      (poselib_blend_cleanup w).props = w.props) := by
  constructor <;>
    · intro w pbd h hs
      unfold poselib_blend_cleanup
      rw [h]
      simp only
      rw [hs]

/-- The session of `testPbd` after an explicit confirm. -/
def testPbdConfirm : PoseBlendData :=
  { testPbd with state := POSE_BLEND_CONFIRM }

/-- The world of `testWorldS` with the session confirmed. -/
def testWorldConf : World := { testWorld with customdata := some testPbdConfirm }

/-- Witness for C7 on the confirmed and the cancelled fixture sessions. -/
theorem C7_confirm_writes_back_factor_witness :
    (poselib_blend_cleanup testWorldConf).props.blend_factor =
      testPbdConfirm.blend_factor ∧
    (poselib_blend_cleanup testWorldC).props = testWorldC.props :=
  ⟨C7_confirm_writes_back_factor.1 testWorldConf testPbdConfirm rfl rfl,
   C7_confirm_writes_back_factor.2 testWorldC testPbdCancel rfl rfl⟩

/-- C8: every successful session open leaves the pose locked with the unlock
request cleared, and teardown — whatever state it is entered in — sets the
unlock request. -/
theorem C8_pose_lock_discipline :
    (∀ (w : World) (e : Option wmEvent),
      (poselib_blend_init_data w e).1 = true →
      (poselib_blend_init_data w e).2.pose_flags.pose_locked = true ∧
      (poselib_blend_init_data w e).2.pose_flags.pose_do_unlock = false) ∧
    (∀ (w : World) (pbd : PoseBlendData), w.customdata = some pbd →
      (poselib_blend_cleanup w).pose_flags.pose_do_unlock = true) := by
  constructor
  · intro w e h
    unfold poselib_blend_init_data at h ⊢
    rcases hob : w.ob_present with _ | _
    · simp [hob] at h
    · rcases ha : w.asset with _ | a
      · simp [hob, ha] at h
      · simp only [hob, ha]
        exact ⟨rfl, rfl⟩
  · intro w pbd h
    unfold poselib_blend_cleanup
    rw [h]
    simp only
    rcases hps : pbd.state <;>
      first
      | rfl
      | rw [(keytag_fields _ _).2.2.1]

/-- Witness for C8: the successful open of `testWorld` and teardown from
every fixture session state. -/
theorem C8_pose_lock_discipline_witness :
    ((poselib_blend_init_data testWorld none).2.pose_flags.pose_locked = true ∧
      (poselib_blend_init_data testWorld none).2.pose_flags.pose_do_unlock =
        false) ∧
    (poselib_blend_cleanup testWorldConf).pose_flags.pose_do_unlock = true ∧
    (poselib_blend_cleanup testWorldC).pose_flags.pose_do_unlock = true ∧
    (poselib_blend_cleanup testWorldS).pose_flags.pose_do_unlock = true :=
  ⟨C8_pose_lock_discipline.1 testWorld none rfl,
   C8_pose_lock_discipline.2 testWorldConf testPbdConfirm rfl,
   C8_pose_lock_discipline.2 testWorldC testPbdCancel rfl,
   C8_pose_lock_discipline.2 testWorldS testPbd rfl⟩

/-- The `needs_redraw` flag of the installed session, false when there is no
session. -/
def needsRedrawOf (w : World) : Bool :=
  match w.customdata with
  | some pbd => pbd.needs_redraw
  | none => false

/-- With the redraw flag clear, `poselib_blend_apply` is a no-op on the
whole world. -/
theorem apply_noop (w : World) (h : needsRedrawOf w = false) :
    poselib_blend_apply w = w := by
  unfold needsRedrawOf at h
  unfold poselib_blend_apply
  rcases hc : w.customdata with _ | pbd
  · rfl
  · rw [hc] at h
    simp [show pbd.needs_redraw = false from h]

/-- `poselib_blend_apply` always leaves the redraw flag clear. -/
theorem apply_clears_redraw (w : World) :
    needsRedrawOf (poselib_blend_apply w) = false := by
  rcases hc : w.customdata with _ | pbd
  · have hnoop : poselib_blend_apply w = w := by
      unfold poselib_blend_apply
      rw [hc]
    rw [hnoop]
    unfold needsRedrawOf
    rw [hc]
  · by_cases hnr : pbd.needs_redraw = false
    · have hnoop : poselib_blend_apply w = w := by
        apply apply_noop
        unfold needsRedrawOf
        rw [hc]
        exact hnr
      rw [hnoop]
      unfold needsRedrawOf
      rw [hc]
      exact hnr
    · unfold poselib_blend_apply
      rw [hc]
      simp only
      rw [if_neg hnr]
      by_cases hst : pbd.state ≠ POSE_BLEND_BLENDING
      · rw [if_pos hst]
        rfl
      · rw [if_neg hst]
        rfl

/-- C9: `poselib_blend_apply` is gated on the redraw flag and clears it: a
call with the flag clear changes nothing at all (rig, tags, session), so a
second consecutive call is always a no-op and two calls equal one. -/
theorem C9_apply_gated_idempotent :
    ∀ w : World,
      needsRedrawOf (poselib_blend_apply w) = false ∧
      (needsRedrawOf w = false → poselib_blend_apply w = w) ∧
      poselib_blend_apply (poselib_blend_apply w) = poselib_blend_apply w :=
  fun w => ⟨apply_clears_redraw w, fun h => apply_noop w h,
    apply_noop (poselib_blend_apply w) (apply_clears_redraw w)⟩

/-- Witness for C9 on the live fixture session (redraw flag clear). -/
theorem C9_apply_gated_idempotent_witness :
    needsRedrawOf (poselib_blend_apply testWorldS) = false ∧
    (needsRedrawOf testWorldS = false →
      poselib_blend_apply testWorldS = testWorldS) ∧
    poselib_blend_apply (poselib_blend_apply testWorldS) =
      poselib_blend_apply testWorldS :=
  C9_apply_gated_idempotent testWorldS

/-- C10: entering teardown while the session is still in a non-terminal
state (INIT, BLENDING or ShowingOriginal) reports the internal error and
falls through to the cancellation branch, restoring the backup onto the
rig. -/
theorem C10_cleanup_nonterminal_restores :
    ∀ (w : World) (pbd : PoseBlendData), w.customdata = some pbd →
      (pbd.state = POSE_BLEND_INIT ∨ pbd.state = POSE_BLEND_BLENDING ∨
        pbd.state = POSE_BLEND_ORIGINAL) →
      (poselib_blend_cleanup w).reports = w.reports ++
        ["Internal pose library error, canceling operator"] ∧
      (poselib_blend_cleanup w).rig =
        BKE_pose_backup_restore pbd.pose_backup w.rig := by
  intro w pbd h hs
  unfold poselib_blend_cleanup
  rw [h]
  simp only
  rcases hs with hs | hs | hs <;> rw [hs] <;> exact ⟨rfl, rfl⟩

/-- The fixture session still in INIT. -/
def testPbdInit : PoseBlendData := { testPbd with state := POSE_BLEND_INIT }

/-- The world of `testWorld` with the INIT session installed. -/
def testWorldInit : World := { testWorld with customdata := some testPbdInit }

/-- Witness for C10 on the INIT-state fixture session. -/
theorem C10_cleanup_nonterminal_restores_witness :
    (poselib_blend_cleanup testWorldInit).reports = testWorldInit.reports ++
      ["Internal pose library error, canceling operator"] ∧
    (poselib_blend_cleanup testWorldInit).rig =
      BKE_pose_backup_restore testPbdInit.pose_backup testWorldInit.rig :=
  C10_cleanup_nonterminal_restores testWorldInit testPbdInit rfl (Or.inl rfl)
